import Mathlib

/-!
Verification of the rwchcd web frontend (`webapp/rwchcd.py`).

The Python module is embedded shallowly:

* Configuration lookups (`cfg.get(key)`) return `Option` values; Python
  truthiness of the looked-up values is made explicit (`truthyStr`,
  `truthyList`).
* The authenticated identity is `web.ctx.env.get('REMOTE_USER')`, an
  `Option String`.
* Request handlers become pure functions from the configuration values they
  look up, the live entity state they read over D-Bus, and the submitted form
  data, to the list of mutating gateway calls they issue plus the kind of
  response they produce.  The mutation lists are in issue order.
* The web.py form library is not part of this repository; where its behavior
  decides a property (dropdown validation) it is modelled from the spec, and
  this is called out on the definition.
-/

/-- Python truthiness of an optional string (`None` and `""` are falsy). -/
def truthyStr : Option String → Bool
  | none => false
  | some s => !s.isEmpty

/-- Python truthiness of an optional list (`None` and `[]` are falsy). -/
def truthyList {α : Type} : Option (List α) → Bool
  | none => false
  | some l => !l.isEmpty

/-- Python `a or b` on two optional list values: the first operand if it is
truthy, otherwise the second. -/
def pyOr {α : Type} (a b : Option (List α)) : Option (List α) :=
  if truthyList a then a else b

/-- `get_godalt(cfggod, cfgdef)` from `rwchcd.py`.  The configuration lookups
are passed in as values: `godname = cfg.get('godname')`,
`remoteUser = web.ctx.env.get('REMOTE_USER')`, `vgod = cfg.get(cfggod)`,
`vdef = cfg.get(cfgdef)`.  Mirrors
`god = cfg.get('godname') and (web.ctx.env.get('REMOTE_USER') == cfg.get('godname'))`
followed by `alt = cfg.get(cfggod) or cfg.get(cfgdef)` when `god` is truthy,
else `alt = cfg.get(cfgdef)`. -/
def get_godalt {α : Type} (godname remoteUser : Option String)
    (vgod vdef : Option (List α)) : Option (List α) :=
  let god := truthyStr godname && (remoteUser == godname)
  if god then pyOr vgod vdef else vdef

/-- A `(code, label)` entry of a configured mode list such as
`"modes": [[2, "Auto"], ...]`. -/
abbrev ModeChoice := Nat × String

/-- The composite system mode as assembled in `rwchcd.GET` (and `startup`):
`currmode = rwchcd_Runtime.SystemMode; if rwchcd_Runtime.StopDhw: currmode |= 0x80`. -/
def composeMode (primary : Nat) (stopDhw : Bool) : Nat :=
  if stopDhw then primary ||| 0x80 else primary

/-- The decomposition performed in `rwchcd.POST`:
`StopDhw = mode & 0x80` (truthy iff nonzero) and `SystemMode = mode & 0x7F`. -/
def decomposeMode (mode : Nat) : Nat × Bool :=
  (mode &&& 0x7F, mode &&& 0x80 != 0)

/-- C2: privilege resolution returns the privileged configuration value
exactly when the identity equals a non-empty configured admin name and the
privileged value is present and non-empty; in every other case it returns the
standard value. -/
theorem get_godalt_characterization {α : Type} (godname remoteUser : Option String)
    (vgod vdef : Option (List α)) :
    get_godalt godname remoteUser vgod vdef =
      if (truthyStr godname && (remoteUser == godname)) && truthyList vgod
      then vgod else vdef := by
  unfold get_godalt pyOr
  cases hg : truthyStr godname && (remoteUser == godname) <;>
    cases hv : truthyList vgod <;> simp [hg, hv]

/-- C3: decomposing the composite mode recovers the primary mode code and the
suppression flag, for every primary code in `[0,127]` and every flag. -/
theorem composeMode_decomposeMode (primary : Nat) (hp : primary < 128) (s : Bool) :
    decomposeMode (composeMode primary s) = (primary, s) := by
  revert s
  revert hp
  revert primary
  decide

/-- Witness for C3 at `primary = 3`, `s = true`. -/
theorem composeMode_decomposeMode_witness :
    3 < 128 ∧ decomposeMode (composeMode 3 true) = (3, true) :=
  ⟨by decide, composeMode_decomposeMode 3 (by decide) true⟩

/-- C8: when the configured admin name is empty or absent, privilege
resolution returns the standard value for every identity: the privileged
value is never selected. -/
theorem empty_godname_never_privileged {α : Type} (godname remoteUser : Option String)
    (vgod vdef : Option (List α)) (h : truthyStr godname = false) :
    get_godalt godname remoteUser vgod vdef = vdef := by
  unfold get_godalt
  simp [h]

/-- Witness for C8: an anonymous/empty identity with an empty admin name gets
the standard list even though a privileged list is configured. -/
theorem empty_godname_never_privileged_witness :
    truthyStr (some "") = false ∧
      get_godalt (some "") (some "") (some [(1, "Off")]) (some [(2, "Auto")]) =
        some [(2, "Auto")] :=
  ⟨by decide, empty_godname_never_privileged (some "") (some "")
    (some [(1, "Off")]) (some [(2, "Auto")]) (by decide)⟩

/-- The anchored regular expression of `formHcTemps.overridetemp`,
`form.regexp('^[+-]?\d+\.?\d*$', ...)` combined with `form.notnull`: an
optional sign, one or more digits, an optional decimal point, zero or more
trailing digits, nothing else.  This is the whole validator set of the
circuit offset field. -/
def validDecimal (s : String) : Bool :=
  let cs := match s.toList with
            | '+' :: r => r
            | '-' :: r => r
            | r => r
  let rest := cs.dropWhile Char.isDigit
  !(cs.takeWhile Char.isDigit).isEmpty &&
    (match rest with
     | [] => true
     | '.' :: ds => ds.all Char.isDigit
     | _ => false)

/-- Modelled from the spec: the run-mode/system-mode dropdown validation is
performed by the web.py form library, which is not part of this repository.
Per the spec (FormResolutionEngine, §4.2), a dropdown submission is valid iff
the submitted code is a member of the choice list supplied at render time
(`frm.runmode.args` / `fr.sysmode.args`), and a dropdown with an absent or
empty choice list rejects every submission.  The submitted value is taken
after `int()` conversion. -/
def dropdownValidates (choices : Option (List ModeChoice)) (v : Nat) : Bool :=
  match choices with
  | none => false
  | some l => l.any (fun c => c.1 == v)

/-- Response kinds of the per-entity POST handlers: re-render the settings
page with field errors, or `render.valid`. -/
inductive EntityResponse
  | rerender
  | valid
  deriving DecidableEq, Repr

/-- Mutating D-Bus calls a `hcircuit.POST` request can issue.  The offset
carries the validated submitted string (the Python code passes
`float(ft.overridetemp.value)`). -/
inductive HcMutation
  | setTempOffsetOverride (v : String)
  | setRunmodeOverride (m : Nat)
  | disableRunmodeOverride
  deriving DecidableEq, Repr

/-- Mutating D-Bus calls a `dhwt.POST` request can issue. -/
inductive DhwMutation
  | setForceChargeOn (b : Bool)
  | setRunmodeOverride (m : Nat)
  | disableRunmodeOverride
  deriving DecidableEq, Repr

/-- Live circuit state read from the gateway that `hcircuit.POST` consults. -/
structure Hcirc where
  RunModeOrig : Nat

/-- Live tank state read from the gateway that `dhwt.POST` consults. -/
structure Dhwt where
  RunModeOrig : Nat

/-- The form data of a circuit settings submission: the raw offset textbox
value, whether the `overriderunmode` checkbox was present (web.py checkboxes
default to unchecked when absent), and the submitted run-mode code. -/
structure HcSubmission where
  overridetemp : String
  overriderunmode : Bool
  runmode : Nat

/-- The form data of a tank settings submission. -/
structure DhwSubmission where
  forcecharge : Bool
  overriderunmode : Bool
  runmode : Nat

/-- `hcircuit.POST` after entity resolution (`get_hcirc` is modelled
separately): validates `formHcTemps` and, when the tier-resolved run-mode
list is truthy, `formHcRunMode`; on any validation failure it re-renders with
no mutation; otherwise it issues `SetTempOffsetOverride` and then, only when
the run-mode list is truthy, exactly one of `SetRunmodeOverride(runmode)`
(checkbox checked and code differs from `RunModeOrig`) or
`DisableRunmodeOverride`. -/
def hcircuit_POST (godname remoteUser : Option String)
    (hcircgodmodes hcircrunmodes : Option (List ModeChoice))
    (hcirc : Hcirc) (sub : HcSubmission) : List HcMutation × EntityResponse :=
  let vft := validDecimal sub.overridetemp
  let runmodes := get_godalt godname remoteUser hcircgodmodes hcircrunmodes
  let vfrm := if truthyList runmodes then dropdownValidates runmodes sub.runmode else true
  if !(vft && vfrm) then
    ([], EntityResponse.rerender)
  else
    let overrides :=
      if truthyList runmodes then
        if sub.overriderunmode && (sub.runmode != hcirc.RunModeOrig) then
          [HcMutation.setRunmodeOverride sub.runmode]
        else
          [HcMutation.disableRunmodeOverride]
      else []
    (HcMutation.setTempOffsetOverride sub.overridetemp :: overrides, EntityResponse.valid)

/-- `dhwt.POST` after entity resolution.  `formDhwProps` holds only
checkboxes with no validators, so `vfp` is always true; the run-mode group is
validated and reconciled exactly as for circuits, and `ForceChargeOn` is
written from the `forcecharge` checkbox. -/
def dhwt_POST (godname remoteUser : Option String)
    (dhwtgodmodes dhwtrunmodes : Option (List ModeChoice))
    (dhwt : Dhwt) (sub : DhwSubmission) : List DhwMutation × EntityResponse :=
  let vfp := true
  let runmodes := get_godalt godname remoteUser dhwtgodmodes dhwtrunmodes
  let vfrm := if truthyList runmodes then dropdownValidates runmodes sub.runmode else true
  if !(vfp && vfrm) then
    ([], EntityResponse.rerender)
  else
    let overrides :=
      if truthyList runmodes then
        if sub.overriderunmode && (sub.runmode != dhwt.RunModeOrig) then
          [DhwMutation.setRunmodeOverride sub.runmode]
        else
          [DhwMutation.disableRunmodeOverride]
      else []
    (DhwMutation.setForceChargeOn sub.forcecharge :: overrides, EntityResponse.valid)

/-- The override-related calls among a circuit mutation list (everything
except the offset write). -/
def hcOverrideCalls (l : List HcMutation) : List HcMutation :=
  l.filter (fun m => match m with
    | HcMutation.setTempOffsetOverride _ => false
    | _ => true)

/-- The override-related calls among a tank mutation list (everything except
the force-charge write). -/
def dhwOverrideCalls (l : List DhwMutation) : List DhwMutation :=
  l.filter (fun m => match m with
    | DhwMutation.setForceChargeOn _ => false
    | _ => true)

/-- Response kinds of `rwchcd.POST`: `web.badrequest()` when the tier-resolved
mode list is falsy, a re-render of the form on validation failure,
`render.valid` on success, or an unhandled exception propagating out of the
handler. -/
inductive RwResult
  | badrequest
  | rerender
  | valid
  | exn
  deriving DecidableEq, Repr

/-- Mutating D-Bus calls `rwchcd.POST` can issue, in issue order:
`rwchcd_Runtime.StopDhw = mode & 0x80` then
`rwchcd_Runtime.SystemMode = mode & 0x7F`. -/
inductive RtMutation
  | setStopDhw (v : Nat)
  | setSystemMode (v : Nat)
  deriving DecidableEq, Repr

/-- `mqtt_pub_mode(mode)`: returns immediately when `cfg.get('mqtthost')` is
falsy; otherwise calls `publish.single`, whose possible failure is the
environment parameter `publishRaises` (the function has no exception
handling, so a raise propagates to the caller). -/
def mqtt_pub_mode (mqtthost : Option String) (publishRaises : Bool) : Except Unit Unit :=
  if !truthyStr mqtthost then Except.ok ()
  else if publishRaises then Except.error () else Except.ok ()

/-- `rwchcd.POST`: resolves the mode list with
`get_godalt('godmodes', 'modes')`; a falsy list raises `web.badrequest()`; a
failed validation re-renders with no mutation; otherwise it writes
`StopDhw = mode & 0x80` and `SystemMode = mode & 0x7F`, then calls
`mqtt_pub_mode(mode)` — an exception there propagates after the two writes
(the `fh-sync` shell side effect carries no gateway state and is omitted). -/
def rwchcd_POST (godname remoteUser : Option String)
    (godmodes modes : Option (List ModeChoice)) (sysmode : Nat)
    (mqtthost : Option String) (publishRaises : Bool) :
    List RtMutation × RwResult :=
  let ms := get_godalt godname remoteUser godmodes modes
  if !truthyList ms then
    ([], RwResult.badrequest)
  else if !dropdownValidates ms sysmode then
    ([], RwResult.rerender)
  else
    let muts := [RtMutation.setStopDhw (sysmode &&& 0x80),
                 RtMutation.setSystemMode (sysmode &&& 0x7F)]
    match mqtt_pub_mode mqtthost publishRaises with
    | Except.error _ => (muts, RwResult.exn)
    | Except.ok _ => (muts, RwResult.valid)

/-- Outcomes of the entity-resolution step (`get_hcirc` / `get_dhwt`):
`ok` means the handler proceeds to fetch the entity from the gateway;
both error outcomes are raised before any gateway access. -/
inductive HttpResult
  | ok
  | badrequest
  | notfound
  deriving DecidableEq, Repr

/-- Decimal value of a digit list, most significant digit first. -/
def digitsVal (ds : List Char) : Nat :=
  ds.foldl (fun acc c => acc * 10 + (c.toNat - 48)) 0

/-- Model of Python `int(id)` on the URL id capture: an optional sign
followed by one or more digits (the URL pattern `\d+` admits only digit
strings anyway).  `none` stands for a raised `ValueError`. -/
def pyInt (s : String) : Option Int :=
  match s.toList with
  | [] => none
  | '-' :: ds =>
    if !ds.isEmpty && ds.all Char.isDigit then some (-(digitsVal ds : Int)) else none
  | '+' :: ds =>
    if !ds.isEmpty && ds.all Char.isDigit then some (digitsVal ds) else none
  | ds =>
    if ds.all Char.isDigit then some (digitsVal ds) else none

/-- `hcircuit.get_hcirc(id)`: inside a `try`, computes
`int(id) not in get_godalt('godhcircuits', 'hcircuits')`; any exception there
(non-integer id, or membership test against a `None` list) raises
`web.badrequest()`; a parsed id absent from the list raises `web.notfound()`;
otherwise the handler goes on to the gateway object fetch. -/
def get_hcirc (godname remoteUser : Option String)
    (godhcircuits hcircuits : Option (List Int)) (id : String) : HttpResult :=
  match pyInt id with
  | none => HttpResult.badrequest
  | some n =>
    match get_godalt godname remoteUser godhcircuits hcircuits with
    | none => HttpResult.badrequest
    | some l => if n ∈ l then HttpResult.ok else HttpResult.notfound

/-- `dhwt.get_dhwt(id)`: same structure as `get_hcirc` over
`get_godalt('goddhwts', 'dhwts')`. -/
def get_dhwt (godname remoteUser : Option String)
    (goddhwts dhwts : Option (List Int)) (id : String) : HttpResult :=
  match pyInt id with
  | none => HttpResult.badrequest
  | some n =>
    match get_godalt godname remoteUser goddhwts dhwts with
    | none => HttpResult.badrequest
    | some l => if n ∈ l then HttpResult.ok else HttpResult.notfound

/-- C1: on every validated submission whose tier-resolved run-mode list is
truthy, the handler issues `SetRunmodeOverride(runmode)` iff the override
checkbox is checked and the requested code differs from the entity's
`RunModeOrig`; in every other case it issues `DisableRunmodeOverride`; and in
either case exactly one override call is issued — for circuits and tanks
alike. -/
theorem override_reconciliation
    (godname remoteUser : Option String)
    (hgm hrm dgm drm : Option (List ModeChoice))
    (hc : Hcirc) (dh : Dhwt) (hsub : HcSubmission) (dsub : DhwSubmission)
    (hrt : truthyList (get_godalt godname remoteUser hgm hrm) = true)
    (hvt : validDecimal hsub.overridetemp = true)
    (hvd : dropdownValidates (get_godalt godname remoteUser hgm hrm) hsub.runmode = true)
    (drt : truthyList (get_godalt godname remoteUser dgm drm) = true)
    (dvd : dropdownValidates (get_godalt godname remoteUser dgm drm) dsub.runmode = true) :
    hcOverrideCalls (hcircuit_POST godname remoteUser hgm hrm hc hsub).1 =
      (if hsub.overriderunmode && (hsub.runmode != hc.RunModeOrig)
       then [HcMutation.setRunmodeOverride hsub.runmode]
       else [HcMutation.disableRunmodeOverride]) ∧
    dhwOverrideCalls (dhwt_POST godname remoteUser dgm drm dh dsub).1 =
      (if dsub.overriderunmode && (dsub.runmode != dh.RunModeOrig)
       then [DhwMutation.setRunmodeOverride dsub.runmode]
       else [DhwMutation.disableRunmodeOverride]) := by
  constructor
  · cases hb : hsub.overriderunmode && (hsub.runmode != hc.RunModeOrig) <;>
      simp [hcircuit_POST, hrt, hvt, hvd, hb, hcOverrideCalls]
  · cases hb : dsub.overriderunmode && (dsub.runmode != dh.RunModeOrig) <;>
      simp [dhwt_POST, drt, dvd, hb, dhwOverrideCalls]

/-- Witness for C1: circuit with standing mode 2, checked override to 4 gives
`SetRunmodeOverride 4`; tank with standing mode 2, checked override to 2
collapses to `DisableRunmodeOverride`. -/
theorem override_reconciliation_witness :
    hcOverrideCalls (hcircuit_POST none none none (some [(2, "Auto"), (4, "Eco")])
        ⟨2⟩ ⟨"-1.5", true, 4⟩).1 = [HcMutation.setRunmodeOverride 4] ∧
    dhwOverrideCalls (dhwt_POST none none none (some [(2, "Auto"), (4, "Eco")])
        ⟨2⟩ ⟨false, true, 2⟩).1 = [DhwMutation.disableRunmodeOverride] := by
  have h := override_reconciliation none none none (some [(2, "Auto"), (4, "Eco")])
    none (some [(2, "Auto"), (4, "Eco")]) ⟨2⟩ ⟨2⟩ ⟨"-1.5", true, 4⟩ ⟨false, true, 2⟩
    (by decide) (by decide) (by decide) (by decide) (by decide)
  exact ⟨h.1.trans (by decide), h.2.trans (by decide)⟩

/-- C4: a submission in which the declared-field validation conjunction
fails produces zero mutating gateway calls and re-renders the settings page,
for circuits and tanks alike. -/
theorem invalid_submission_no_mutation
    (godname remoteUser : Option String)
    (hgm hrm dgm drm : Option (List ModeChoice))
    (hc : Hcirc) (dh : Dhwt) (hsub : HcSubmission) (dsub : DhwSubmission)
    (hbad : (validDecimal hsub.overridetemp &&
        (if truthyList (get_godalt godname remoteUser hgm hrm)
         then dropdownValidates (get_godalt godname remoteUser hgm hrm) hsub.runmode
         else true)) = false)
    (dbad : (if truthyList (get_godalt godname remoteUser dgm drm)
         then dropdownValidates (get_godalt godname remoteUser dgm drm) dsub.runmode
         else true) = false) :
    hcircuit_POST godname remoteUser hgm hrm hc hsub = ([], EntityResponse.rerender) ∧
    dhwt_POST godname remoteUser dgm drm dh dsub = ([], EntityResponse.rerender) := by
  constructor
  · simp only [hcircuit_POST, hbad]
    simp
  · simp only [dhwt_POST, Bool.true_and]
    simp only [dbad]
    simp

/-- Witness for C4: a circuit submission with a non-numeric offset and a tank
submission with an out-of-list run mode both produce no mutation. -/
theorem invalid_submission_no_mutation_witness :
    hcircuit_POST none none none (some [(1, "A")]) ⟨1⟩ ⟨"abc", true, 2⟩ =
      ([], EntityResponse.rerender) ∧
    dhwt_POST none none none (some [(1, "A")]) ⟨1⟩ ⟨false, true, 2⟩ =
      ([], EntityResponse.rerender) :=
  invalid_submission_no_mutation none none none (some [(1, "A")]) none (some [(1, "A")])
    ⟨1⟩ ⟨1⟩ ⟨"abc", true, 2⟩ ⟨false, true, 2⟩ (by decide) (by decide)

/-- C10: on a valid submission with a falsy (absent or empty) tier-resolved
run-mode list, no override mutation is issued at all: the circuit handler
writes only the temperature offset and the tank handler writes only the
force-charge flag. -/
theorem no_runmodes_no_override_mutation
    (godname remoteUser : Option String)
    (hgm hrm dgm drm : Option (List ModeChoice))
    (hc : Hcirc) (dh : Dhwt) (hsub : HcSubmission) (dsub : DhwSubmission)
    (hrt : truthyList (get_godalt godname remoteUser hgm hrm) = false)
    (hvt : validDecimal hsub.overridetemp = true)
    (drt : truthyList (get_godalt godname remoteUser dgm drm) = false) :
    hcircuit_POST godname remoteUser hgm hrm hc hsub =
      ([HcMutation.setTempOffsetOverride hsub.overridetemp], EntityResponse.valid) ∧
    dhwt_POST godname remoteUser dgm drm dh dsub =
      ([DhwMutation.setForceChargeOn dsub.forcecharge], EntityResponse.valid) := by
  constructor
  · simp [hcircuit_POST, hrt, hvt]
  · simp [dhwt_POST, drt]

/-- Witness for C10: with no run-mode list configured, a valid submission
yields exactly the offset write (circuit) and the force-charge write (tank). -/
theorem no_runmodes_no_override_mutation_witness :
    hcircuit_POST none none none none ⟨2⟩ ⟨"+3.5", true, 4⟩ =
      ([HcMutation.setTempOffsetOverride "+3.5"], EntityResponse.valid) ∧
    dhwt_POST none none none (some []) ⟨2⟩ ⟨true, true, 4⟩ =
      ([DhwMutation.setForceChargeOn true], EntityResponse.valid) :=
  no_runmodes_no_override_mutation none none none none none (some [])
    ⟨2⟩ ⟨2⟩ ⟨"+3.5", true, 4⟩ ⟨true, true, 4⟩ (by decide) (by decide) (by decide)

/-- C5: every valid global-mode submission issues exactly two gateway
mutations, the suppress half `StopDhw = mode & 0x80` and the primary half
`SystemMode = mode & 0x7F`, in that order. -/
theorem global_mode_two_mutations
    (godname remoteUser : Option String) (gm sm : Option (List ModeChoice))
    (sysmode : Nat) (mqtthost : Option String) (publishRaises : Bool)
    (hms : truthyList (get_godalt godname remoteUser gm sm) = true)
    (hv : dropdownValidates (get_godalt godname remoteUser gm sm) sysmode = true) :
    (rwchcd_POST godname remoteUser gm sm sysmode mqtthost publishRaises).1 =
      [RtMutation.setStopDhw (sysmode &&& 0x80),
       RtMutation.setSystemMode (sysmode &&& 0x7F)] ∧
    (rwchcd_POST godname remoteUser gm sm sysmode mqtthost publishRaises).1.length = 2 := by
  have h1 : (rwchcd_POST godname remoteUser gm sm sysmode mqtthost publishRaises).1 =
      [RtMutation.setStopDhw (sysmode &&& 0x80),
       RtMutation.setSystemMode (sysmode &&& 0x7F)] := by
    cases hp : mqtt_pub_mode mqtthost publishRaises <;>
      simp [rwchcd_POST, hms, hv, hp]
  exact ⟨h1, by rw [h1]; rfl⟩

/-- Witness for C5 at the spec's Scenario F: composite 131 yields
`StopDhw = 128` (suppress set) and `SystemMode = 3`. -/
theorem global_mode_two_mutations_witness :
    (rwchcd_POST none none none (some [(131, "NoDHW")]) 131 none false).1 =
      [RtMutation.setStopDhw 128, RtMutation.setSystemMode 3] ∧
    (rwchcd_POST none none none (some [(131, "NoDHW")]) 131 none false).1.length = 2 := by
  have h := global_mode_two_mutations none none none (some [(131, "NoDHW")]) 131 none false
    (by decide) (by decide)
  exact ⟨h.1.trans (by decide), h.2⟩

/-- C6: a run-mode code that is not a member of the (truthy) tier-resolved
choice list fails dropdown validation, so the whole submission is rejected
with no gateway mutation — for circuits and tanks alike. -/
theorem nonmember_runmode_rejected
    (godname remoteUser : Option String)
    (hgm hrm dgm drm : Option (List ModeChoice))
    (hc : Hcirc) (dh : Dhwt) (hsub : HcSubmission) (dsub : DhwSubmission)
    (l m : List ModeChoice)
    (hl : get_godalt godname remoteUser hgm hrm = some l) (hlne : l ≠ [])
    (hmem : ∀ c ∈ l, c.1 ≠ hsub.runmode)
    (hm : get_godalt godname remoteUser dgm drm = some m) (hmne : m ≠ [])
    (mmem : ∀ c ∈ m, c.1 ≠ dsub.runmode) :
    hcircuit_POST godname remoteUser hgm hrm hc hsub = ([], EntityResponse.rerender) ∧
    dhwt_POST godname remoteUser dgm drm dh dsub = ([], EntityResponse.rerender) := by
  have hle : l.isEmpty = false := by
    cases l with
    | nil => exact absurd rfl hlne
    | cons a t => rfl
  have hme : m.isEmpty = false := by
    cases m with
    | nil => exact absurd rfl hmne
    | cons a t => rfl
  have hdv : dropdownValidates (some l) hsub.runmode = false := by
    simp only [dropdownValidates, List.any_eq_false]
    intro c hcl
    simpa using hmem c hcl
  have mdv : dropdownValidates (some m) dsub.runmode = false := by
    simp only [dropdownValidates, List.any_eq_false]
    intro c hcl
    simpa using mmem c hcl
  constructor
  · simp [hcircuit_POST, hl, truthyList, hle, hdv]
  · simp [dhwt_POST, hm, truthyList, hme, mdv]

/-- Witness for C6: submitting code 2 against the choice list `[(1, "A")]`
is rejected with no mutation for both entity kinds. -/
theorem nonmember_runmode_rejected_witness :
    hcircuit_POST none none none (some [(1, "A")]) ⟨1⟩ ⟨"1.5", true, 2⟩ =
      ([], EntityResponse.rerender) ∧
    dhwt_POST none none none (some [(1, "A")]) ⟨1⟩ ⟨true, true, 2⟩ =
      ([], EntityResponse.rerender) :=
  nonmember_runmode_rejected none none none (some [(1, "A")]) none (some [(1, "A")])
    ⟨1⟩ ⟨1⟩ ⟨"1.5", true, 2⟩ ⟨true, true, 2⟩ [(1, "A")] [(1, "A")]
    (by decide) (by decide) (by decide) (by decide) (by decide) (by decide)

/-- C7 counterexample: with an MQTT host configured and the publish raising,
a valid global-mode submission applies both gateway mutations but the
request ends in a propagated exception, not in the success response — the
publish failure is not swallowed. -/
theorem publish_failure_not_swallowed_counterexample :
    (rwchcd_POST none none none (some [(3, "Auto")]) 3 (some "mqtt") true).1 =
      [RtMutation.setStopDhw 0, RtMutation.setSystemMode 3] ∧
    (rwchcd_POST none none none (some [(3, "Auto")]) 3 (some "mqtt") true).2 =
      RwResult.exn ∧
    RwResult.exn ≠ RwResult.valid := by
  decide

/-- C7 amended: when the publish raises after the two SystemMode mutations of
a valid submission, the mutations stand (no rollback) but the exception
propagates and the request fails instead of completing successfully. -/
theorem publish_failure_propagates
    (godname remoteUser : Option String) (gm sm : Option (List ModeChoice))
    (sysmode : Nat) (mqtthost : Option String)
    (hms : truthyList (get_godalt godname remoteUser gm sm) = true)
    (hv : dropdownValidates (get_godalt godname remoteUser gm sm) sysmode = true)
    (hh : truthyStr mqtthost = true) :
    rwchcd_POST godname remoteUser gm sm sysmode mqtthost true =
      ([RtMutation.setStopDhw (sysmode &&& 0x80),
        RtMutation.setSystemMode (sysmode &&& 0x7F)], RwResult.exn) := by
  simp [rwchcd_POST, hms, hv, mqtt_pub_mode, hh]

/-- Witness for the amended C7 at a concrete configuration. -/
theorem publish_failure_propagates_witness :
    rwchcd_POST none none none (some [(3, "Auto")]) 3 (some "mqtt") true =
      ([RtMutation.setStopDhw 0, RtMutation.setSystemMode 3], RwResult.exn) :=
  (publish_failure_propagates none none none (some [(3, "Auto")]) 3 (some "mqtt")
    (by decide) (by decide) (by decide)).trans (by decide)

/-- C9: a per-entity request id that does not parse as an integer is rejected
as bad-request, and an id that parses to an integer absent from the
tier-resolved id list is rejected as not-found — in both handler classes,
before any gateway access (`HttpResult.ok` is what lets the gateway fetch
proceed). -/
theorem entity_id_validation
    (godname remoteUser : Option String)
    (ghc hcs gdh dhs : Option (List Int))
    (idbad idint : String) (n : Int) (l m : List Int)
    (hbad : pyInt idbad = none)
    (hint : pyInt idint = some n)
    (hl : get_godalt godname remoteUser ghc hcs = some l) (hnl : n ∉ l)
    (hm : get_godalt godname remoteUser gdh dhs = some m) (hnm : n ∉ m) :
    get_hcirc godname remoteUser ghc hcs idbad = HttpResult.badrequest ∧
    get_dhwt godname remoteUser gdh dhs idbad = HttpResult.badrequest ∧
    get_hcirc godname remoteUser ghc hcs idint = HttpResult.notfound ∧
    get_dhwt godname remoteUser gdh dhs idint = HttpResult.notfound := by
  refine ⟨?_, ?_, ?_, ?_⟩ <;>
    simp [get_hcirc, get_dhwt, hbad, hint, hl, hm, hnl, hnm]

/-- Witness for C9: id `"x"` is bad-request, id `"7"` with id lists `[0, 1]`
and `[0]` is not-found, for both handler classes. -/
theorem entity_id_validation_witness :
    get_hcirc none none none (some [0, 1]) "x" = HttpResult.badrequest ∧
    get_dhwt none none none (some [0]) "x" = HttpResult.badrequest ∧
    get_hcirc none none none (some [0, 1]) "7" = HttpResult.notfound ∧
    get_dhwt none none none (some [0]) "7" = HttpResult.notfound :=
  entity_id_validation none none none (some [0, 1]) none (some [0]) "x" "7" 7 [0, 1] [0]
    (by decide) (by decide) (by decide) (by decide) (by decide) (by decide)
